import Mathlib

/-!
Verification of the encrypted-object metadata and remote-link resolution
subsystem (the `CryptMeta` handler, the storage chain resolver
`buildStorageChain`, the nested down-proxy pick `pickNestedProxyURL`,
and the crypt driver's `DataKey` derivation) against its natural-language
specification.

The Go source is shallowly embedded: pure helpers become Lean functions;
external collaborators (mount-table lookup, directory listing, link fetch,
rclone obscure reveal, scrypt, base64) become fields of an `Env` record of
oracle functions, so every theorem quantifies over their behaviour.
Go `int`/`int64` fields are modelled as `Int`; byte slices as `List Nat`.
-/

namespace CryptMetaSpec

/-- Result of revealing/deriving: Go `(T, error)` pairs are `Except String T`. -/
abbrev GoResult (α : Type) := Except String α

/-- Model of `driverCrypt.Crypt`: the encryption-overlay driver's fields used
by the handler and by `DataKey` (obscured password and salt, the configured
encrypted suffix, and the path mapper `EncryptedPath`, whose cipher internals
are outside the visible source and thus kept as an abstract function). -/
structure CryptDriver where
  Password : String
  Salt : String
  EncryptedSuffix : String
  encryptedPath : String → Bool → String

/-- Model of a mounted storage (`driver.Driver` together with its
`model.Storage` configuration): mount path, proxy flags, the optional
encryption-overlay capability (`storage.(*driverCrypt.Crypt)`), and the
optional re-routing capability (`aliasPathResolver.ResolveRawPaths`). -/
structure Storage where
  MountPath : String
  WebProxy : Bool
  MustProxy : Bool
  crypt : Option CryptDriver
  resolver : Option (String → List String)

/-- Model of a directory entry (`model.Obj`): name, size, directory flag. -/
structure FsObj where
  Name : String
  Size : Int
  IsDir : Bool
deriving DecidableEq

/-- Model of `model.Link`: the remote link descriptor returned by `op.Link`.
Go's `http.Header` (`map[string][]string`) is modelled as an association
list from key to the list of values. -/
structure GoLink where
  URL : String
  Header : List (String × List String)
  ContentLength : Int
  Concurrency : Int
  PartSize : Int

/-- Environment of external collaborators consumed by the handler; each field
models one function the Go code calls but whose body is outside the
embedded core. -/
structure Env where
  fsGetStorage : String → GoResult Storage
  fsList : String → GoResult (List FsObj)
  getStorageAndActualPath : String → GoResult (Storage × String)
  opLink : Storage → String → GoResult (GoLink × Option FsObj)
  FixAndCleanPath : String → String
  pathDir : String → String
  pathBase : String → String
  GenerateDownProxyURL : Storage → String → String
  GetApiUrl : String
  EncodePath : String → String
  IsStorageSignEnabled : String → Bool
  signAll : Bool
  Sign : String → String
  obscureReveal : String → GoResult String
  scryptKey : List Nat → List Nat → Nat → Nat → Nat → Nat → GoResult (List Nat)
  base64Encode : List Nat → String

/-! Constants of the crypt driver (`drivers/crypt`). -/

/-- DataBlockSize is the plaintext payload length per encrypted block. -/
def DataBlockSize : Int := 64 * 1024

/-- DataBlockHeaderSize is the per-block overhead added by secretbox. -/
def DataBlockHeaderSize : Int := 16

/-- Modelled from the spec: `FileHeaderSize = fileHeaderSize`, the length of
the crypt file header (a magic value plus a per-file random nonce); the
lower-case constant's numeric value is not part of the visible source, so a
concrete representative value is fixed here. No claim depends on the value. -/
def FileHeaderSize : Int := 32

/-- Length in bytes of the content key returned by `DataKey`. -/
def dataKeyLen : Nat := 32

/-- Length in bytes of the name key segment of the key material. -/
def nameKeyLen : Nat := 32

/-- Length in bytes of the name tweak segment of the key material. -/
def nameTweakLen : Nat := 16

/-- scrypt work factor N. -/
def scryptN : Nat := 16384

/-- scrypt work factor r. -/
def scryptR : Nat := 8

/-- scrypt work factor p. -/
def scryptP : Nat := 1

/-- The fixed default scrypt salt used when the revealed salt is empty. -/
def defaultScryptSalt : List Nat :=
  [0xA8, 0x0D, 0xF4, 0x3A, 0x8F, 0xBD, 0x03, 0x08, 0xA7, 0xCA, 0xB8, 0x3E, 0x58, 0x1F, 0x86, 0xB1]

/-- Modelled from the spec: the recognizable obfuscation marker prefixed to
obscured secrets (the source's `obfuscatedPrefix` constant, whose defining
file is outside the visible source). Its exact text is irrelevant to every
claim; only "is the marker a prefix of the secret" matters. -/
def obfuscatedMarker : String := "obfuscated:"

/-- Model of Go `[]byte(s)` as the list of code points (the byte-level
encoding is irrelevant to the claims: the bytes only flow into the abstract
scrypt oracle). -/
def strBytes (s : String) : List Nat := s.data.map Char.toNat

/-- Model of Go `copy(dst, src)`: the resulting contents of `dst` after
copying `min (len dst) (len src)` leading bytes of `src` into `dst`. -/
def goCopy (dst src : List Nat) : List Nat :=
  src.take dst.length ++ dst.drop src.length

/-- Model of Go `strings.TrimPrefix(s, pre)`, at the character level (for
valid UTF-8 this coincides with Go's byte-level prefix test). -/
def trimPrefixStr (s pre : String) : String :=
  if List.isPrefixOf pre.data s.data then String.mk (s.data.drop pre.data.length) else s

/-- Embedding of `(*Crypt).revealSecret`: empty secrets reveal to empty;
secrets carrying the obfuscation marker are stripped and passed through the
obscure-reveal collaborator; anything else is returned as-is. -/
def revealSecret (env : Env) (secret : String) : GoResult String :=
  if secret = "" then .ok ""
  else if List.isPrefixOf obfuscatedMarker.data secret.data then
    match env.obscureReveal (String.mk (secret.data.drop obfuscatedMarker.data.length)) with
    | .error e => .error e
    | .ok decoded => .ok decoded
  else .ok secret

/-- Embedding of `(*Crypt).DataKey`: reveal password and salt, then either
keep the all-zero key material (empty password) or run scrypt over
(password, salt-or-default) and copy the derived bytes in; the content key
is the first `dataKeyLen` bytes. -/
def DataKey (env : Env) (d : CryptDriver) : GoResult (List Nat) :=
  match revealSecret env d.Password with
  | .error e => .error ("failed to reveal password: " ++ e)
  | .ok password =>
    match revealSecret env d.Salt with
    | .error e => .error ("failed to reveal salt: " ++ e)
    | .ok salt =>
      let keySize := dataKeyLen + nameKeyLen + nameTweakLen
      let key0 : List Nat := List.replicate keySize 0
      let keyRes : GoResult (List Nat) :=
        if password ≠ "" then
          let saltBytes := if salt ≠ "" then strBytes salt else defaultScryptSalt
          match env.scryptKey (strBytes password) saltBytes scryptN scryptR scryptP keySize with
          | .error e => .error ("failed to derive key: " ++ e)
          | .ok derived => .ok (goCopy key0 derived)
        else .ok key0
      match keyRes with
      | .error e => .error e
      | .ok key => .ok (goCopy (List.replicate dataKeyLen 0) (key.take dataKeyLen))

/-- One hop of a storage resolution chain (`storageChainNode`). -/
structure storageChainNode where
  storage : Storage
  rawPath : String
  actualPath : String

/-- The cycle-detection identity of a chain node, exactly as the source
builds it: `storage.GetStorage().MountPath + ":" + actualPath`. -/
def chainNodeKey (n : storageChainNode) : String :=
  n.storage.MountPath ++ ":" ++ n.actualPath

/-- The depth bound of the chain resolver (`const maxDepth = 16`). -/
def maxDepth : Nat := 16

/-- Embedding of the loop body of `buildStorageChain`, with the remaining
iteration budget as explicit fuel (the Go loop runs `depth` from 0 to
`maxDepth - 1`, so the entry point passes `maxDepth`). The `visited` set is
kept as a list of identity keys and `nodes` is the accumulated chain. -/
def buildStorageChainLoop (env : Env) :
    Nat → String → List String → List storageChainNode →
    GoResult (List storageChainNode)
  | 0, _, _, nodes => .ok nodes
  | fuel + 1, currentRawPath, visited, nodes =>
    match env.getStorageAndActualPath currentRawPath with
    | .error e => .error e
    | .ok (storage, actualPath) =>
      let key := storage.MountPath ++ ":" ++ actualPath
      if key ∈ visited then .ok nodes
      else
        let nodes' := nodes ++ [{ storage := storage, rawPath := currentRawPath, actualPath := actualPath }]
        match storage.resolver with
        | none => .ok nodes'
        | some resolve =>
          match resolve actualPath with
          | [] => .ok nodes'
          | candidate :: _ =>
            let next := env.FixAndCleanPath candidate
            if next = currentRawPath then .ok nodes'
            else buildStorageChainLoop env fuel next (key :: visited) nodes'

/-- Embedding of `buildStorageChain`: clean the input path and run the
bounded resolution loop with empty visited set and empty accumulator. -/
def buildStorageChain (env : Env) (rawPath : String) :
    GoResult (List storageChainNode) :=
  buildStorageChainLoop env maxDepth (env.FixAndCleanPath rawPath) [] []

/-- The candidate down-proxy URLs collected by `pickNestedProxyURL`, in chain
order: for each node, the operator-configured down-proxy URL for that node's
storage and raw path, kept only when non-empty. -/
def downProxyCandidates (env : Env) (nodes : List storageChainNode) : List String :=
  nodes.filterMap (fun node =>
    let url := env.GenerateDownProxyURL node.storage node.rawPath
    if url = "" then none else some url)

/-- Embedding of `pickNestedProxyURL`: with two or more applicable
candidates the second is returned, with exactly one that one, otherwise
the empty string. -/
def pickNestedProxyURL (env : Env) (nodes : List storageChainNode) : String :=
  if nodes.length = 0 then ""
  else
    let candidates := downProxyCandidates env nodes
    if 2 ≤ candidates.length then (candidates.get? 1).getD ""
    else if candidates.length = 1 then (candidates.get? 0).getD ""
    else ""

/-- Wire shape of the `remote` object of the response (`cryptRemoteInfo`);
`Headers = none` models the Go `nil` map, which is absent on the wire. -/
structure cryptRemoteInfo where
  URL : String
  Method : String
  Headers : Option (List (String × String))
  Concurrency : Int
  PartSize : Int
  RawPath : String
deriving DecidableEq

/-- Wire shape of the handler response (`cryptMetaResponse`). -/
structure cryptMetaResponse where
  Mode : String
  Path : String
  FileName : String
  Size : Int
  EncryptedSize : Int
  FileHeaderSize : Int
  BlockDataSize : Int
  BlockHeaderSize : Int
  DataKey : String
  EncryptedSuffix : String
  EncryptedPath : String
  EncryptedActualPath : String
  Remote : cryptRemoteInfo
deriving DecidableEq

/-- Outcome of the handler: an HTTP error status with message, or the
success response. -/
inductive HandlerResult where
  | fail (status : Nat) (msg : String)
  | ok (resp : cryptMetaResponse)
deriving DecidableEq

/-- Embedding of the forced-proxy URL synthesis (lines building
`GetApiUrl + "/p" + EncodePath(path)` plus the optional sign query). -/
def forcedProxyURL (env : Env) (encryptionPath : String) : String :=
  let proxyURL := env.GetApiUrl ++ "/p" ++ env.EncodePath encryptionPath
  if env.IsStorageSignEnabled encryptionPath || env.signAll then
    proxyURL ++ "?sign=" ++ env.Sign encryptionPath
  else proxyURL

/-- Embedding of the delivery decision of `CryptMeta` (the
`useProxy`/`remoteURL` assignments): nested down-proxy pick first, then the
terminal storage's direct down-proxy, then forced proxy on
must-proxy/web-proxy, otherwise the backend link URL unchanged. Returns
`(useProxy, remoteURL)`. -/
def decideDelivery (env : Env) (chain : List storageChainNode)
    (remoteStorage : Storage) (encryptionPath : String) (linkURL : String) :
    Bool × String :=
  let selectedProxy := pickNestedProxyURL env chain
  if selectedProxy ≠ "" then (true, selectedProxy)
  else
    let proxyURL := env.GenerateDownProxyURL remoteStorage encryptionPath
    if proxyURL ≠ "" then (true, proxyURL)
    else if remoteStorage.MustProxy || remoteStorage.WebProxy then
      (true, forcedProxyURL env encryptionPath)
    else (false, linkURL)

/-- Embedding of the `encryptedSize` computation: the link's content length
when positive, otherwise the remote object's size, otherwise zero. -/
def computeEncryptedSize (remoteLink : GoLink) (remoteObj : Option FsObj) : Int :=
  if remoteLink.ContentLength > 0 then remoteLink.ContentLength
  else
    match remoteObj with
    | some o => o.Size
    | none => 0

/-- Embedding of the `headerMap` computation: absent (`nil`) under proxy
delivery, otherwise each link header entry with its values joined by ",". -/
def deliveredHeaders (useProxy : Bool) (hdr : List (String × List String)) :
    Option (List (String × String)) :=
  if useProxy then none
  else some (hdr.map (fun kv => (kv.1, String.intercalate "," kv.2)))

/-- Embedding of the `concurrency` adjustment: zero under proxy delivery,
otherwise capped at 16. -/
def cappedConcurrency (useProxy : Bool) (c : Int) : Int :=
  if useProxy then 0 else if c > 16 then 16 else c

/-- Embedding of the `partSize` adjustment: zero under proxy delivery,
otherwise the link's part size unchanged. -/
def deliveredPartSize (useProxy : Bool) (p : Int) : Int :=
  if useProxy then 0 else p

/-- Embedding of the tail of `CryptMeta` after the mode branch: fetch the
remote link from the terminal storage/actual path, decide delivery,
compute sizes/headers/hints and assemble the response. -/
def cryptMetaFinish (env : Env) (cleanPath : String) (obj : FsObj)
    (mode : String) (fhs bds bhs : Int) (dataKeyEncoded encSuffix : String)
    (storageChain : List storageChainNode) (remoteStorage : Storage)
    (remoteActualPath encryptionPath encryptionActual : String) : HandlerResult :=
  match env.opLink remoteStorage remoteActualPath with
  | .error e => .fail 500 ("failed to get remote link for " ++ remoteActualPath ++ ": " ++ e)
  | .ok (remoteLink, remoteObj) =>
    let d := decideDelivery env storageChain remoteStorage encryptionPath remoteLink.URL
    let encryptedSize := computeEncryptedSize remoteLink remoteObj
    let headerMap := deliveredHeaders d.1 remoteLink.Header
    let concurrency := cappedConcurrency d.1 remoteLink.Concurrency
    let partSize := deliveredPartSize d.1 remoteLink.PartSize
    .ok { Mode := mode, Path := cleanPath, FileName := obj.Name, Size := obj.Size,
          EncryptedSize := encryptedSize, FileHeaderSize := fhs, BlockDataSize := bds,
          BlockHeaderSize := bhs, DataKey := dataKeyEncoded, EncryptedSuffix := encSuffix,
          EncryptedPath := encryptionPath, EncryptedActualPath := encryptionActual,
          Remote := { URL := d.2, Method := "GET", Headers := headerMap,
                      Concurrency := concurrency, PartSize := partSize,
                      RawPath := remoteActualPath } }

/-- Embedding of the `CryptMeta` handler (the chain-resolving variant):
locate the owning storage, list the parent directory and find the entry,
reject directories, branch on the encryption-overlay capability, resolve
the storage chain (the terminal node supersedes the single-hop lookup),
then finish with link fetch and delivery decision. -/
def CryptMeta (env : Env) (reqPath : String) : HandlerResult :=
  match env.fsGetStorage reqPath with
  | .error e => .fail 500 e
  | .ok storage =>
    let cleanPath := env.FixAndCleanPath reqPath
    let dirPath0 := env.pathDir cleanPath
    let dirPath := if dirPath0 = "." then "/" else dirPath0
    let fileName := env.pathBase cleanPath
    match env.fsList dirPath with
    | .error e => .fail 500 e
    | .ok listEntries =>
      match listEntries.find? (fun entry => entry.Name == fileName) with
      | none => .fail 404 "object not found"
      | some obj =>
        if obj.IsDir then .fail 400 "directory is not supported"
        else
          match storage.crypt with
          | some cryptDriver =>
            match DataKey env cryptDriver with
            | .error e => .fail 500 e
            | .ok dataKey =>
              let dataKeyEncoded := env.base64Encode dataKey
              let relativePath := trimPrefixStr (trimPrefixStr cleanPath storage.MountPath) "/"
              let requestPath := cryptDriver.encryptedPath relativePath false
              match env.getStorageAndActualPath requestPath with
              | .error e => .fail 500 ("failed to locate remote storage for " ++ requestPath ++ ": " ++ e)
              | .ok (rs0, rap0) =>
                match buildStorageChain env requestPath with
                | .error e => .fail 500 ("failed to resolve storage chain for " ++ requestPath ++ ": " ++ e)
                | .ok storageChain =>
                  match storageChain.getLast? with
                  | some last =>
                    cryptMetaFinish env cleanPath obj "crypt" FileHeaderSize DataBlockSize
                      DataBlockHeaderSize dataKeyEncoded cryptDriver.EncryptedSuffix
                      storageChain last.storage last.actualPath requestPath last.actualPath
                  | none =>
                    cryptMetaFinish env cleanPath obj "crypt" FileHeaderSize DataBlockSize
                      DataBlockHeaderSize dataKeyEncoded cryptDriver.EncryptedSuffix
                      storageChain rs0 rap0 requestPath rap0
          | none =>
            let requestPath := cleanPath
            match env.getStorageAndActualPath requestPath with
            | .error e => .fail 500 ("failed to locate storage for " ++ requestPath ++ ": " ++ e)
            | .ok (rs0, rap0) =>
              match buildStorageChain env requestPath with
              | .error e => .fail 500 ("failed to resolve storage chain for " ++ requestPath ++ ": " ++ e)
              | .ok storageChain =>
                match storageChain.getLast? with
                | some last =>
                  cryptMetaFinish env cleanPath obj "plain" 0 0 0 "" ""
                    storageChain last.storage last.actualPath requestPath last.actualPath
                | none =>
                  cryptMetaFinish env cleanPath obj "plain" 0 0 0 "" ""
                    storageChain rs0 rap0 requestPath rap0

/-- The spec's physical-size formula written from its words:
`size + file_header_size + block_header_size * ceil(size / block_data_size)`,
with ceiling division for nonnegative sizes. Used to compare the response's
`encrypted_size` against the specification's claimed equation. -/
def specEncryptedSize (size fhs bds bhs : Int) : Int :=
  size + fhs + bhs * ((size + bds - 1) / bds)

/-! Concrete environments and storages used to instantiate theorems with
hypotheses at explicit inputs. -/

/-- A storage with no capabilities, used as a building block. -/
def storNull : Storage :=
  { MountPath := "", WebProxy := false, MustProxy := false, crypt := none, resolver := none }

/-- A base environment in which every collaborator is inert; concrete
scenarios override the fields they need. -/
def envBase : Env :=
  { fsGetStorage := fun _ => .error "no storage",
    fsList := fun _ => .error "no list",
    getStorageAndActualPath := fun _ => .error "no storage",
    opLink := fun _ _ => .error "no link",
    FixAndCleanPath := fun p => p,
    pathDir := fun _ => "/",
    pathBase := fun p => p,
    GenerateDownProxyURL := fun _ _ => "",
    GetApiUrl := "http://server",
    EncodePath := fun p => p,
    IsStorageSignEnabled := fun _ => false,
    signAll := false,
    Sign := fun _ => "token",
    obscureReveal := fun _ => .error "not obscured",
    scryptKey := fun _ _ _ _ _ n => .ok (List.replicate n 1),
    base64Encode := fun bytes => "b64-" ++ toString bytes.length }

/-- A terminal (non-re-routing) storage mounted at `/w`. -/
def storTerm : Storage := { storNull with MountPath := "/w" }

/-- Environment whose mount table owns every path with `storTerm`. -/
def envTerminal : Env :=
  { envBase with getStorageAndActualPath := fun p => .ok (storTerm, p) }

/-- The single chain node produced by resolving `/w/f` in `envTerminal`. -/
def nodeTerm : storageChainNode :=
  { storage := storTerm, rawPath := "/w/f", actualPath := "/w/f" }

/-- Storage `A`: re-routes every actual path to `/B/x`. -/
def storA : Storage :=
  { storNull with MountPath := "/A", resolver := some (fun _ => ["/B/x"]) }

/-- Storage `B`: re-routes every actual path back to `/A/x`. -/
def storB : Storage :=
  { storNull with MountPath := "/B", resolver := some (fun _ => ["/A/x"]) }

/-- Environment realizing the spec's cycle scenario: `A` re-routes to `B`
and `B` re-routes back to `A`. -/
def envCycle : Env :=
  { envBase with getStorageAndActualPath := fun p =>
      if p = "/A/x" then .ok (storA, "x")
      else if p = "/B/x" then .ok (storB, "x")
      else .error "missing" }

/-- First node of the cycle scenario chain. -/
def nodeA : storageChainNode := { storage := storA, rawPath := "/A/x", actualPath := "x" }

/-- Second node of the cycle scenario chain. -/
def nodeB : storageChainNode := { storage := storB, rawPath := "/B/x", actualPath := "x" }

/-- A storage mounted at `p` that re-routes every actual path to a strictly
longer fresh path, so resolution never reaches a terminal storage. -/
def rerouteStor (p : String) : Storage :=
  { storNull with MountPath := p, resolver := some (fun ap => [ap ++ "x"]) }

/-- Environment whose storages re-route forever to ever-longer fresh paths,
so the full re-routing chain has unbounded length. -/
def envReroute : Env :=
  { envBase with getStorageAndActualPath := fun p => .ok (rerouteStor p, p) }

/-! Theorems. -/

/-- Appending a fresh element preserves the no-duplicates property. -/
theorem nodup_append_singleton {α : Type} {l : List α} {a : α}
    (h : l.Nodup) (ha : a ∉ l) : (l ++ [a]).Nodup := by
  simp [List.nodup_append, h, ha]

/-- The chain loop can only grow the accumulator by one node per unit of
fuel, so any successful result is bounded by the initial length plus fuel. -/
theorem buildStorageChainLoop_length (env : Env) (fuel : Nat) :
    ∀ (cur : String) (visited : List String) (nodes chain : List storageChainNode),
    buildStorageChainLoop env fuel cur visited nodes = Except.ok chain →
    chain.length ≤ nodes.length + fuel := by
  induction fuel with
  | zero =>
    intro cur visited nodes chain h
    simp only [buildStorageChainLoop] at h
    injection h with h
    subst h
    omega
  | succ n ih =>
    intro cur visited nodes chain h
    simp only [buildStorageChainLoop] at h
    split at h
    · exact Except.noConfusion h
    · split at h
      · injection h with h
        subst h
        omega
      · split at h
        · injection h with h
          subst h
          simp only [List.length_append, List.length_singleton]
          omega
        · split at h
          · injection h with h
            subst h
            simp only [List.length_append, List.length_singleton]
            omega
          · split at h
            · injection h with h
              subst h
              simp only [List.length_append, List.length_singleton]
              omega
            · have := ih _ _ _ _ h
              simp only [List.length_append, List.length_singleton] at this
              omega

/-- Invariant of the chain loop: if the accumulated nodes have pairwise
distinct identity keys, all of which are recorded in the visited set, then
any successful result also has pairwise distinct identity keys. -/
theorem buildStorageChainLoop_nodup_key (env : Env) (fuel : Nat) :
    ∀ (cur : String) (visited : List String) (nodes chain : List storageChainNode),
    (nodes.map chainNodeKey).Nodup →
    (∀ k ∈ nodes.map chainNodeKey, k ∈ visited) →
    buildStorageChainLoop env fuel cur visited nodes = Except.ok chain →
    (chain.map chainNodeKey).Nodup := by
  induction fuel with
  | zero =>
    intro cur visited nodes chain hnd hsub h
    simp only [buildStorageChainLoop] at h
    injection h with h
    subst h
    exact hnd
  | succ n ih =>
    intro cur visited nodes chain hnd hsub h
    simp only [buildStorageChainLoop] at h
    split at h
    · exact Except.noConfusion h
    · rename_i storage actualPath heq
      have hkey : chainNodeKey { storage := storage, rawPath := cur, actualPath := actualPath } =
          storage.MountPath ++ ":" ++ actualPath := rfl
      split at h
      · injection h with h
        subst h
        exact hnd
      · rename_i hv
        have hnotin : (storage.MountPath ++ ":" ++ actualPath) ∉ nodes.map chainNodeKey := by
          intro hmem
          exact hv (hsub _ hmem)
        have hnd' : ((nodes ++ [storageChainNode.mk storage cur actualPath]).map chainNodeKey).Nodup := by
          rw [List.map_append]
          exact nodup_append_singleton hnd (by simpa [hkey] using hnotin)
        have hsub' : ∀ k ∈ (nodes ++ [storageChainNode.mk storage cur actualPath]).map chainNodeKey,
            k ∈ (storage.MountPath ++ ":" ++ actualPath) :: visited := by
          intro k hk
          rw [List.map_append, List.mem_append] at hk
          rcases hk with hk | hk
          · exact List.mem_cons_of_mem _ (hsub _ hk)
          · simp only [List.map_cons, List.map_nil, List.mem_singleton] at hk
            subst hk
            rw [hkey]
            exact List.mem_cons_self _ _
        split at h
        · injection h with h
          subst h
          exact hnd'
        · split at h
          · injection h with h
            subst h
            exact hnd'
          · split at h
            · injection h with h
              subst h
              exact hnd'
            · exact ih _ _ _ _ hnd' hsub' h

/-- C2: every chain returned by the storage chain resolver has pairwise
distinct (mount path, actual path) identities; and whenever the freshly
computed identity of the current hop is already in the visited set, the loop
stops and returns the accumulated chain unchanged, without error. -/
theorem chain_no_duplicate_identity :
    (∀ (env : Env) (rawPath : String) (chain : List storageChainNode),
       buildStorageChain env rawPath = Except.ok chain →
       chain.Pairwise (fun m n =>
         (m.storage.MountPath, m.actualPath) ≠ (n.storage.MountPath, n.actualPath))) ∧
    (∀ (env : Env) (fuel : Nat) (cur : String) (visited : List String)
       (nodes : List storageChainNode) (storage : Storage) (actualPath : String),
       env.getStorageAndActualPath cur = Except.ok (storage, actualPath) →
       storage.MountPath ++ ":" ++ actualPath ∈ visited →
       buildStorageChainLoop env (fuel + 1) cur visited nodes = Except.ok nodes) := by
  constructor
  · intro env rawPath chain h
    have hkeys := buildStorageChainLoop_nodup_key env maxDepth (env.FixAndCleanPath rawPath)
      [] [] chain (by simp) (by simp) h
    unfold List.Nodup at hkeys
    rw [List.pairwise_map] at hkeys
    refine hkeys.imp ?_
    intro a b hne heq
    apply hne
    have h1 : a.storage.MountPath = b.storage.MountPath := congrArg Prod.fst heq
    have h2 : a.actualPath = b.actualPath := congrArg Prod.snd heq
    simp [chainNodeKey, h1, h2]
  · intro env fuel cur visited nodes storage actualPath hget hmem
    simp [buildStorageChainLoop, hget, hmem]

/-- Witness for C2 at the spec's concrete cycle scenario (`A` re-routes to
`B`, `B` re-routes back to `A`): resolution succeeds with the two-node
chain, its identities are pairwise distinct, and the third iteration — whose
computed identity is already visited — returns the accumulated chain. -/
theorem chain_no_duplicate_identity_witness :
    buildStorageChain envCycle "/A/x" = Except.ok [nodeA, nodeB] ∧
    ([nodeA, nodeB].Pairwise (fun m n =>
      (m.storage.MountPath, m.actualPath) ≠ (n.storage.MountPath, n.actualPath))) ∧
    envCycle.getStorageAndActualPath "/A/x" = Except.ok (storA, "x") ∧
    ("/A" ++ ":" ++ "x") ∈ ["/B:x", "/A:x"] ∧
    buildStorageChainLoop envCycle 14 "/A/x" ["/B:x", "/A:x"] [nodeA, nodeB] =
      Except.ok [nodeA, nodeB] :=
  ⟨rfl,
   chain_no_duplicate_identity.1 envCycle "/A/x" [nodeA, nodeB] rfl,
   rfl,
   by decide,
   chain_no_duplicate_identity.2 envCycle 13 "/A/x" ["/B:x", "/A:x"] [nodeA, nodeB]
     storA "x" rfl (by decide)⟩

/-- C3: the storage chain resolver never returns more than 16 nodes, and an
unbounded re-routing configuration is truncated at exactly 16 nodes and
returned successfully rather than rejected. -/
theorem chain_depth_bound :
    (∀ (env : Env) (rawPath : String) (chain : List storageChainNode),
       buildStorageChain env rawPath = Except.ok chain → chain.length ≤ 16) ∧
    Except.map List.length (buildStorageChain envReroute "/a") = Except.ok 16 := by
  constructor
  · intro env rawPath chain h
    have := buildStorageChainLoop_length env maxDepth (env.FixAndCleanPath rawPath) [] [] chain h
    simpa [maxDepth] using this
  · rfl

/-- Witness for C3: a one-hop resolution in a terminal-storage environment,
whose resulting chain the theorem bounds by 16. -/
theorem chain_depth_bound_witness :
    buildStorageChain envTerminal "/w/f" = Except.ok [nodeTerm] ∧
    ([nodeTerm] : List storageChainNode).length ≤ 16 :=
  ⟨rfl, chain_depth_bound.1 envTerminal "/w/f" [nodeTerm] rfl⟩

/-- The empty string never appears among the collected down-proxy
candidates: only non-empty URLs are kept. -/
theorem empty_not_mem_downProxyCandidates (env : Env) (nodes : List storageChainNode) :
    "" ∉ downProxyCandidates env nodes := by
  intro h
  rw [downProxyCandidates, List.mem_filterMap] at h
  obtain ⟨node, _, hf⟩ := h
  by_cases hu : env.GenerateDownProxyURL node.storage node.rawPath = ""
  · simp [hu] at hf
  · simp [hu] at hf

/-- With at least two applicable candidates, the nested pick returns the
second one in chain order. -/
theorem pickNestedProxyURL_second (env : Env) (nodes : List storageChainNode)
    (a b : String) (rest : List String)
    (h : downProxyCandidates env nodes = a :: b :: rest) :
    pickNestedProxyURL env nodes = b := by
  have hne : ¬ nodes.length = 0 := by
    intro h0
    rw [List.length_eq_zero] at h0
    subst h0
    simp [downProxyCandidates] at h
  simp only [pickNestedProxyURL, h, List.length_cons]
  rw [if_neg hne, if_pos (by omega)]
  rfl

/-- With exactly one applicable candidate, the nested pick returns it. -/
theorem pickNestedProxyURL_single (env : Env) (nodes : List storageChainNode)
    (a : String) (h : downProxyCandidates env nodes = [a]) :
    pickNestedProxyURL env nodes = a := by
  have hne : ¬ nodes.length = 0 := by
    intro h0
    rw [List.length_eq_zero] at h0
    subst h0
    simp [downProxyCandidates] at h
  simp only [pickNestedProxyURL, h, List.length_cons, List.length_nil]
  rw [if_neg hne, if_neg (by omega)]
  simp

/-- When the nested pick is non-empty, delivery selects it and turns the
proxy flag on. -/
theorem decideDelivery_nested (env : Env) (chain : List storageChainNode)
    (rs : Storage) (p u : String) (hp : pickNestedProxyURL env chain ≠ "") :
    decideDelivery env chain rs p u = (true, pickNestedProxyURL env chain) := by
  simp [decideDelivery, hp]

/-- When no proxy condition applies, delivery is direct with the backend
link URL unchanged. -/
theorem decideDelivery_direct (env : Env) (chain : List storageChainNode)
    (rs : Storage) (p u : String)
    (h1 : pickNestedProxyURL env chain = "")
    (h2 : env.GenerateDownProxyURL rs p = "")
    (h3 : rs.MustProxy = false) (h4 : rs.WebProxy = false) :
    decideDelivery env chain rs p u = (false, u) := by
  simp [decideDelivery, h1, h2, h3, h4]

/-- When any of the three proxy conditions applies, the proxy flag is on. -/
theorem decideDelivery_proxy_fst (env : Env) (chain : List storageChainNode)
    (rs : Storage) (p u : String)
    (h : pickNestedProxyURL env chain ≠ "" ∨ env.GenerateDownProxyURL rs p ≠ "" ∨
         rs.MustProxy = true ∨ rs.WebProxy = true) :
    (decideDelivery env chain rs p u).1 = true := by
  by_cases h1 : pickNestedProxyURL env chain = ""
  · by_cases h2 : env.GenerateDownProxyURL rs p = ""
    · rcases h with h | h | h | h
      · exact absurd h1 h
      · exact absurd h2 h
      · simp [decideDelivery, h1, h2, h]
      · simp [decideDelivery, h1, h2, h]
    · simp [decideDelivery, h1, h2]
  · simp [decideDelivery, h1]

/-- C1: for every resolved chain whose applicable operator-configured
down-proxy candidates (in chain order) number two or more, the delivery
decision puts the second candidate in the response URL; with exactly one
applicable candidate, that one is selected. -/
theorem nested_proxy_second_candidate (env : Env) (cleanPath : String)
    (obj : FsObj) (mode : String) (fhs bds bhs : Int) (dk suf : String)
    (chain : List storageChainNode) (rs : Storage)
    (rap encPath encActual : String) (link : GoLink) (robj : Option FsObj)
    (hlink : env.opLink rs rap = Except.ok (link, robj)) :
    (∀ (a b : String) (rest : List String),
       downProxyCandidates env chain = a :: b :: rest →
       ∃ resp, cryptMetaFinish env cleanPath obj mode fhs bds bhs dk suf
           chain rs rap encPath encActual = HandlerResult.ok resp ∧
         resp.Remote.URL = b) ∧
    (∀ (a : String),
       downProxyCandidates env chain = [a] →
       ∃ resp, cryptMetaFinish env cleanPath obj mode fhs bds bhs dk suf
           chain rs rap encPath encActual = HandlerResult.ok resp ∧
         resp.Remote.URL = a) := by
  constructor
  · intro a b rest hc
    have hpick : pickNestedProxyURL env chain = b :=
      pickNestedProxyURL_second env chain a b rest hc
    have hbne : b ≠ "" := by
      intro hb
      subst hb
      exact empty_not_mem_downProxyCandidates env chain (by rw [hc]; simp)
    have hdec : decideDelivery env chain rs encPath link.URL = (true, b) := by
      rw [decideDelivery_nested env chain rs encPath link.URL (by rw [hpick]; exact hbne), hpick]
    simp only [cryptMetaFinish, hlink]
    exact ⟨_, rfl, by simp [hdec]⟩
  · intro a hc
    have hpick : pickNestedProxyURL env chain = a :=
      pickNestedProxyURL_single env chain a hc
    have hane : a ≠ "" := by
      intro hb
      subst hb
      exact empty_not_mem_downProxyCandidates env chain (by rw [hc]; simp)
    have hdec : decideDelivery env chain rs encPath link.URL = (true, a) := by
      rw [decideDelivery_nested env chain rs encPath link.URL (by rw [hpick]; exact hane), hpick]
    simp only [cryptMetaFinish, hlink]
    exact ⟨_, rfl, by simp [hdec]⟩

/-- C5: whenever any of the three proxy conditions applies (nested
down-proxy candidate, direct down-proxy of the terminal storage, or
must-proxy/web-proxy), the response's remote headers are absent and the
concurrency and part-size hints are both zero, for every backend link. -/
theorem proxy_suppresses_headers_and_hints (env : Env) (cleanPath : String)
    (obj : FsObj) (mode : String) (fhs bds bhs : Int) (dk suf : String)
    (chain : List storageChainNode) (rs : Storage)
    (rap encPath encActual : String) (link : GoLink) (robj : Option FsObj)
    (hlink : env.opLink rs rap = Except.ok (link, robj))
    (hproxy : pickNestedProxyURL env chain ≠ "" ∨
              env.GenerateDownProxyURL rs encPath ≠ "" ∨
              rs.MustProxy = true ∨ rs.WebProxy = true) :
    ∃ resp, cryptMetaFinish env cleanPath obj mode fhs bds bhs dk suf
        chain rs rap encPath encActual = HandlerResult.ok resp ∧
      resp.Remote.Headers = none ∧
      resp.Remote.Concurrency = 0 ∧
      resp.Remote.PartSize = 0 := by
  have hfst : (decideDelivery env chain rs encPath link.URL).1 = true :=
    decideDelivery_proxy_fst env chain rs encPath link.URL hproxy
  simp only [cryptMetaFinish, hlink]
  exact ⟨_, rfl, by simp [deliveredHeaders, hfst], by simp [cappedConcurrency, hfst],
         by simp [deliveredPartSize, hfst]⟩

/-- Under direct delivery the concurrency cap is exactly the minimum of the
backend hint and 16. -/
theorem cappedConcurrency_direct (c : Int) : cappedConcurrency false c = min c 16 := by
  rw [cappedConcurrency, if_neg (by simp)]
  rcases le_or_lt c 16 with h | h
  · rw [if_neg (by omega), min_eq_left h]
  · rw [if_pos h, min_eq_right (by omega)]

/-- C6: when no proxy condition applies, the response carries the backend
link's headers (each multi-value joined by commas, the handler's rendering
of the header map) and its concurrency hint capped at 16, i.e.
`min(backendConcurrency, 16)`, and the URL is the backend's own. -/
theorem direct_delivery_passthrough (env : Env) (cleanPath : String)
    (obj : FsObj) (mode : String) (fhs bds bhs : Int) (dk suf : String)
    (chain : List storageChainNode) (rs : Storage)
    (rap encPath encActual : String) (link : GoLink) (robj : Option FsObj)
    (hlink : env.opLink rs rap = Except.ok (link, robj))
    (h1 : pickNestedProxyURL env chain = "")
    (h2 : env.GenerateDownProxyURL rs encPath = "")
    (h3 : rs.MustProxy = false) (h4 : rs.WebProxy = false) :
    ∃ resp, cryptMetaFinish env cleanPath obj mode fhs bds bhs dk suf
        chain rs rap encPath encActual = HandlerResult.ok resp ∧
      resp.Remote.Headers =
        some (link.Header.map (fun kv => (kv.1, String.intercalate "," kv.2))) ∧
      resp.Remote.Concurrency = min link.Concurrency 16 ∧
      resp.Remote.URL = link.URL := by
  have hdec : decideDelivery env chain rs encPath link.URL = (false, link.URL) :=
    decideDelivery_direct env chain rs encPath link.URL h1 h2 h3 h4
  simp only [cryptMetaFinish, hlink]
  refine ⟨_, rfl, ?_, ?_, ?_⟩
  · simp [deliveredHeaders, hdec]
  · rw [hdec]
    exact cappedConcurrency_direct link.Concurrency
  · simp [hdec]

/-- A must-proxy storage mounted at `/M`. -/
def storMust : Storage := { storNull with MountPath := "/M", MustProxy := true }

/-- A backend link with a multi-valued header and an over-the-cap
concurrency hint, as produced by `envProxy.opLink` for actual path `f`. -/
def linkW : GoLink :=
  { URL := "http://direct/f", Header := [("X", ["a", "b"])],
    ContentLength := 5, Concurrency := 99, PartSize := 7 }

/-- A file object used by delivery-decision witnesses. -/
def objW : FsObj := { Name := "c", Size := 5, IsDir := false }

/-- Environment in which link fetches succeed with `linkW`-shaped links and
the operator configured down-proxy URLs for the storages mounted at `/A`
and `/B` only. -/
def envProxy : Env :=
  { envBase with
    opLink := fun _ ap =>
      .ok ({ URL := "http://direct/" ++ ap, Header := [("X", ["a", "b"])],
             ContentLength := 5, Concurrency := 99, PartSize := 7 }, none),
    GenerateDownProxyURL := fun st p =>
      if st.MountPath = "/A" then "http://proxyA" ++ p
      else if st.MountPath = "/B" then "http://proxyB" ++ p
      else "" }

/-- Witness for C1: with the two-node chain `A`, `B` both exposing
candidates, the assembled URL is `B`'s candidate (the second); with only
node `A`, it is `A`'s candidate. -/
theorem nested_proxy_second_candidate_witness :
    envProxy.opLink storTerm "f" = Except.ok (linkW, none) ∧
    downProxyCandidates envProxy [nodeA, nodeB] =
      ["http://proxyA/A/x", "http://proxyB/B/x"] ∧
    (∃ resp, cryptMetaFinish envProxy "/c" objW "plain" 0 0 0 "" ""
        [nodeA, nodeB] storTerm "f" "/c" "f" = HandlerResult.ok resp ∧
      resp.Remote.URL = "http://proxyB/B/x") ∧
    downProxyCandidates envProxy [nodeA] = ["http://proxyA/A/x"] ∧
    (∃ resp, cryptMetaFinish envProxy "/c" objW "plain" 0 0 0 "" ""
        [nodeA] storTerm "f" "/c" "f" = HandlerResult.ok resp ∧
      resp.Remote.URL = "http://proxyA/A/x") :=
  ⟨rfl, rfl,
   (nested_proxy_second_candidate envProxy "/c" objW "plain" 0 0 0 "" ""
     [nodeA, nodeB] storTerm "f" "/c" "f" linkW none rfl).1
     "http://proxyA/A/x" "http://proxyB/B/x" [] rfl,
   rfl,
   (nested_proxy_second_candidate envProxy "/c" objW "plain" 0 0 0 "" ""
     [nodeA] storTerm "f" "/c" "f" linkW none rfl).2 "http://proxyA/A/x" rfl⟩

/-- Witness for C5 at the forced-proxy case: a must-proxy terminal storage
with no down-proxy candidates yields absent headers and zeroed hints even
though the backend link suggested headers, concurrency 99 and part size 7. -/
theorem proxy_suppresses_headers_and_hints_witness :
    envProxy.opLink storMust "f" = Except.ok (linkW, none) ∧
    storMust.MustProxy = true ∧
    (∃ resp, cryptMetaFinish envProxy "/M/f" objW "plain" 0 0 0 "" ""
        [] storMust "f" "/M/f" "f" = HandlerResult.ok resp ∧
      resp.Remote.Headers = none ∧
      resp.Remote.Concurrency = 0 ∧
      resp.Remote.PartSize = 0) :=
  ⟨rfl, rfl,
   proxy_suppresses_headers_and_hints envProxy "/M/f" objW "plain" 0 0 0 "" ""
     [] storMust "f" "/M/f" "f" linkW none rfl (Or.inr (Or.inr (Or.inl rfl)))⟩

/-- Witness for C6: a terminal storage with no proxy conditions passes the
link's joined headers through and caps concurrency 99 at 16. -/
theorem direct_delivery_passthrough_witness :
    envProxy.opLink storTerm "f" = Except.ok (linkW, none) ∧
    pickNestedProxyURL envProxy [] = "" ∧
    envProxy.GenerateDownProxyURL storTerm "/w/f" = "" ∧
    (∃ resp, cryptMetaFinish envProxy "/w/f" objW "plain" 0 0 0 "" ""
        [] storTerm "f" "/w/f" "f" = HandlerResult.ok resp ∧
      resp.Remote.Headers =
        some (linkW.Header.map (fun kv => (kv.1, String.intercalate "," kv.2))) ∧
      resp.Remote.Concurrency = min linkW.Concurrency 16 ∧
      resp.Remote.URL = linkW.URL) :=
  ⟨rfl, rfl, rfl,
   direct_delivery_passthrough envProxy "/w/f" objW "plain" 0 0 0 "" ""
     [] storTerm "f" "/w/f" "f" linkW none rfl rfl rfl rfl rfl⟩

/-- An overlay whose password is empty but whose salt carries the
obfuscation marker with a payload the obscure-reveal collaborator rejects
(rclone's reveal fails on malformed base64 input). -/
def cdrvBadSalt : CryptDriver :=
  { Password := "", Salt := "obfuscated:x", EncryptedSuffix := ".bin",
    encryptedPath := fun p _ => p }

/-- An overlay with empty password and empty salt. -/
def cdrvEmpty : CryptDriver :=
  { Password := "", Salt := "", EncryptedSuffix := ".bin",
    encryptedPath := fun p _ => p }

/-- Counterexample to C7 as stated: this overlay's revealed password is the
empty string, yet key derivation does not succeed — the salt is revealed
first and its de-obfuscation error aborts `DataKey` before the
empty-password branch is reached. -/
theorem empty_password_key_counterexample :
    revealSecret envBase cdrvBadSalt.Password = Except.ok "" ∧
    DataKey envBase cdrvBadSalt = Except.error "failed to reveal salt: not obscured" :=
  ⟨rfl, rfl⟩

/-- C7 (amended): for every overlay whose revealed password is the empty
string and whose salt reveals successfully, key derivation succeeds with a
content key of exactly 32 all-zero bytes. The environment — and with it the
key-stretching collaborator `scryptKey` — is universally quantified and
absent from the conclusion, so the key-stretching function is never
consulted. -/
theorem empty_password_zero_key (env : Env) (d : CryptDriver) (s : String)
    (hp : revealSecret env d.Password = Except.ok "")
    (hs : revealSecret env d.Salt = Except.ok s) :
    DataKey env d = Except.ok (List.replicate dataKeyLen 0) := by
  simp only [DataKey, hp, hs]
  rfl

/-- Witness for C7 (amended) at an overlay with empty password and empty
salt, in an environment whose scrypt oracle would return all-one bytes if
it were consulted: the key is nevertheless all-zero. -/
theorem empty_password_zero_key_witness :
    revealSecret envBase cdrvEmpty.Password = Except.ok "" ∧
    revealSecret envBase cdrvEmpty.Salt = Except.ok "" ∧
    DataKey envBase cdrvEmpty = Except.ok (List.replicate dataKeyLen 0) :=
  ⟨rfl, rfl, empty_password_zero_key envBase cdrvEmpty "" rfl rfl⟩

/-- A directory entry named `sub`. -/
def dirObj : FsObj := { Name := "sub", Size := 0, IsDir := true }

/-- Environment whose listing locates the directory entry `sub`. -/
def envDir : Env :=
  { envBase with
    fsGetStorage := fun _ => .ok storTerm,
    pathDir := fun _ => "/d",
    pathBase := fun _ => "sub",
    fsList := fun _ => .ok [dirObj] }

/-- C8: whenever the located directory entry is a directory, the handler
fails with BadRequest (400) and the fixed message, for every environment —
in particular for arbitrary key-derivation, chain-resolution and link-fetch
collaborators, none of which can influence the outcome, and no success
response is produced. -/
theorem directory_rejected (env : Env) (reqPath : String) (storage : Storage)
    (entries : List FsObj) (obj : FsObj)
    (hstorage : env.fsGetStorage reqPath = Except.ok storage)
    (hlist : env.fsList (if env.pathDir (env.FixAndCleanPath reqPath) = "."
        then "/" else env.pathDir (env.FixAndCleanPath reqPath)) = Except.ok entries)
    (hfind : entries.find?
        (fun entry => entry.Name == env.pathBase (env.FixAndCleanPath reqPath)) = some obj)
    (hdir : obj.IsDir = true) :
    CryptMeta env reqPath = HandlerResult.fail 400 "directory is not supported" := by
  simp [CryptMeta, hstorage, hlist, hfind, hdir]

/-- Witness for C8: requesting `/d/sub`, whose parent listing holds the
directory entry `sub`, yields the BadRequest failure. -/
theorem directory_rejected_witness :
    envDir.fsGetStorage "/d/sub" = Except.ok storTerm ∧
    envDir.fsList (if envDir.pathDir (envDir.FixAndCleanPath "/d/sub") = "."
      then "/" else envDir.pathDir (envDir.FixAndCleanPath "/d/sub")) = Except.ok [dirObj] ∧
    ([dirObj].find?
      (fun entry => entry.Name == envDir.pathBase (envDir.FixAndCleanPath "/d/sub")) = some dirObj) ∧
    dirObj.IsDir = true ∧
    CryptMeta envDir "/d/sub" = HandlerResult.fail 400 "directory is not supported" :=
  ⟨rfl, rfl, rfl, rfl,
   directory_rejected envDir "/d/sub" storTerm [dirObj] dirObj rfl rfl rfl rfl⟩

/-- C9: for every successful request whose owning storage is not an
encryption overlay, the response has mode `plain`, empty data key, empty
encrypted suffix, zero layout constants, and carries the cleaned request
path as `encrypted_path` and the terminal chain node's actual path as
`encrypted_actual_path`. -/
theorem plain_mode_response (env : Env) (reqPath : String) (storage : Storage)
    (entries : List FsObj) (obj : FsObj) (rs0 : Storage) (rap0 : String)
    (chain : List storageChainNode) (last : storageChainNode)
    (link : GoLink) (robj : Option FsObj)
    (hstorage : env.fsGetStorage reqPath = Except.ok storage)
    (hplain : storage.crypt = none)
    (hlist : env.fsList (if env.pathDir (env.FixAndCleanPath reqPath) = "."
        then "/" else env.pathDir (env.FixAndCleanPath reqPath)) = Except.ok entries)
    (hfind : entries.find?
        (fun entry => entry.Name == env.pathBase (env.FixAndCleanPath reqPath)) = some obj)
    (hdir : obj.IsDir = false)
    (hga : env.getStorageAndActualPath (env.FixAndCleanPath reqPath) = Except.ok (rs0, rap0))
    (hchain : buildStorageChain env (env.FixAndCleanPath reqPath) = Except.ok chain)
    (hlast : chain.getLast? = some last)
    (hlink : env.opLink last.storage last.actualPath = Except.ok (link, robj)) :
    ∃ resp, CryptMeta env reqPath = HandlerResult.ok resp ∧
      resp.Mode = "plain" ∧ resp.DataKey = "" ∧ resp.EncryptedSuffix = "" ∧
      resp.FileHeaderSize = 0 ∧ resp.BlockDataSize = 0 ∧ resp.BlockHeaderSize = 0 ∧
      resp.EncryptedPath = env.FixAndCleanPath reqPath ∧
      resp.EncryptedActualPath = last.actualPath := by
  simp only [CryptMeta, hstorage, hplain, hlist, hfind, hdir, Bool.false_eq_true,
    if_false, hga, hchain, hlast, cryptMetaFinish, hlink]
  exact ⟨_, rfl, rfl, rfl, rfl, rfl, rfl, rfl, rfl, rfl⟩

/-- A plain file entry named `f` of size 7. -/
def objF : FsObj := { Name := "f", Size := 7, IsDir := false }

/-- The backend link produced by `envPlain.opLink`. -/
def linkP : GoLink :=
  { URL := "http://x", Header := [], ContentLength := 7, Concurrency := 0, PartSize := 0 }

/-- Environment realizing a successful plain-mode run for path `/w/f`. -/
def envPlain : Env :=
  { envBase with
    fsGetStorage := fun _ => .ok storTerm,
    pathDir := fun _ => "/w",
    pathBase := fun _ => "f",
    fsList := fun _ => .ok [objF],
    getStorageAndActualPath := fun p => .ok (storTerm, p),
    opLink := fun _ _ => .ok (linkP, none) }

/-- Witness for C9 at the concrete plain-mode run in `envPlain`. -/
theorem plain_mode_response_witness :
    envPlain.fsGetStorage "/w/f" = Except.ok storTerm ∧
    storTerm.crypt = none ∧
    envPlain.fsList (if envPlain.pathDir (envPlain.FixAndCleanPath "/w/f") = "."
      then "/" else envPlain.pathDir (envPlain.FixAndCleanPath "/w/f")) = Except.ok [objF] ∧
    ([objF].find?
      (fun entry => entry.Name == envPlain.pathBase (envPlain.FixAndCleanPath "/w/f")) = some objF) ∧
    objF.IsDir = false ∧
    envPlain.getStorageAndActualPath (envPlain.FixAndCleanPath "/w/f") = Except.ok (storTerm, "/w/f") ∧
    buildStorageChain envPlain (envPlain.FixAndCleanPath "/w/f") = Except.ok [nodeTerm] ∧
    ([nodeTerm] : List storageChainNode).getLast? = some nodeTerm ∧
    envPlain.opLink nodeTerm.storage nodeTerm.actualPath = Except.ok (linkP, none) ∧
    (∃ resp, CryptMeta envPlain "/w/f" = HandlerResult.ok resp ∧
      resp.Mode = "plain" ∧ resp.DataKey = "" ∧ resp.EncryptedSuffix = "" ∧
      resp.FileHeaderSize = 0 ∧ resp.BlockDataSize = 0 ∧ resp.BlockHeaderSize = 0 ∧
      resp.EncryptedPath = envPlain.FixAndCleanPath "/w/f" ∧
      resp.EncryptedActualPath = nodeTerm.actualPath) :=
  ⟨rfl, rfl, rfl, rfl, rfl, rfl, rfl, rfl, rfl,
   plain_mode_response envPlain "/w/f" storTerm [objF] objF storTerm "/w/f"
     [nodeTerm] nodeTerm linkP none rfl rfl rfl rfl rfl rfl rfl rfl rfl⟩

/-- C10: every successful response — plain or crypt — satisfies
`remote.raw_path = encrypted_actual_path`: both fields are populated with
the terminal chain node's backend-local actual path used for the link
fetch. -/
theorem raw_path_equals_encrypted_actual_path (env : Env) (reqPath : String)
    (resp : cryptMetaResponse)
    (h : CryptMeta env reqPath = HandlerResult.ok resp) :
    resp.Remote.RawPath = resp.EncryptedActualPath := by
  simp only [CryptMeta, cryptMetaFinish] at h
  repeat' split at h
  all_goals first
    | exact HandlerResult.noConfusion h
    | (injection h with h; subst h; rfl)

/-- The full response of the `envPlain` run, used as the C10 witness. -/
def respP : cryptMetaResponse :=
  { Mode := "plain", Path := "/w/f", FileName := "f", Size := 7,
    EncryptedSize := 7, FileHeaderSize := 0, BlockDataSize := 0,
    BlockHeaderSize := 0, DataKey := "", EncryptedSuffix := "",
    EncryptedPath := "/w/f", EncryptedActualPath := "/w/f",
    Remote := { URL := "http://x", Method := "GET", Headers := some [],
                Concurrency := 0, PartSize := 0, RawPath := "/w/f" } }

/-- Witness for C10 at the concrete successful run in `envPlain`. -/
theorem raw_path_equals_encrypted_actual_path_witness :
    CryptMeta envPlain "/w/f" = HandlerResult.ok respP ∧
    respP.Remote.RawPath = respP.EncryptedActualPath :=
  ⟨rfl, raw_path_equals_encrypted_actual_path envPlain "/w/f" respP rfl⟩

/-- An encryption overlay with empty password, empty salt, suffix `.bin`,
whose path mapper sends a relative path `rel` to `/r/rel.bin`. -/
def cdrvC : CryptDriver :=
  { Password := "", Salt := "", EncryptedSuffix := ".bin",
    encryptedPath := fun rel _ => "/r/" ++ rel ++ ".bin" }

/-- The overlay storage mounted at `/c`. -/
def storCrypt : Storage :=
  { MountPath := "/c", WebProxy := false, MustProxy := false,
    crypt := some cdrvC, resolver := none }

/-- The wrapped physical storage mounted at `/r`. -/
def storR : Storage := { storNull with MountPath := "/r" }

/-- The plaintext file entry of logical size 100. -/
def objC : FsObj := { Name := "f", Size := 100, IsDir := false }

/-- A backend link whose reported content length (12345) does not follow
the crypt layout for a logical size of 100. -/
def linkC : GoLink :=
  { URL := "http://y", Header := [], ContentLength := 12345,
    Concurrency := 0, PartSize := 0 }

/-- Environment realizing a successful crypt-mode run for `/c/f` whose
backend reports content length 12345. -/
def envCrypt : Env :=
  { envBase with
    fsGetStorage := fun _ => .ok storCrypt,
    pathDir := fun _ => "/c",
    pathBase := fun _ => "f",
    fsList := fun _ => .ok [objC],
    getStorageAndActualPath := fun p => .ok (storR, p),
    opLink := fun _ _ => .ok (linkC, none) }

/-- The full response of the `envCrypt` run. -/
def respC : cryptMetaResponse :=
  { Mode := "crypt", Path := "/c/f", FileName := "f", Size := 100,
    EncryptedSize := 12345, FileHeaderSize := 32, BlockDataSize := 65536,
    BlockHeaderSize := 16, DataKey := "b64-32", EncryptedSuffix := ".bin",
    EncryptedPath := "/r/f.bin", EncryptedActualPath := "/r/f.bin",
    Remote := { URL := "http://y", Method := "GET", Headers := some [],
                Concurrency := 0, PartSize := 0, RawPath := "/r/f.bin" } }

/-- Counterexample to C4 as stated: a successful crypt-mode request whose
response violates
`encrypted_size = size + file_header_size + block_header_size * ceil(size / block_data_size)`
(12345 versus 100 + 32 + 16 * 1 = 148) — the handler copies the
backend-reported length instead of computing the formula. -/
theorem encrypted_size_formula_counterexample :
    CryptMeta envCrypt "/c/f" = HandlerResult.ok respC ∧
    respC.Mode = "crypt" ∧
    respC.EncryptedSize ≠ specEncryptedSize respC.Size respC.FileHeaderSize
      respC.BlockDataSize respC.BlockHeaderSize :=
  ⟨rfl, rfl, by decide⟩

/-- C4 (amended): for every successful crypt-mode request, the response's
`encrypted_size` equals the backend-reported physical length — the link's
content length when positive, otherwise the remote object's size, otherwise
zero — and the claimed layout equation
`encrypted_size = size + file_header_size + block_header_size * ceil(size / block_data_size)`
holds over the response's exposed fields exactly when that backend-reported
length satisfies it over the located object's size and the crypt layout
constants. In particular the equation fails for every backend whose
reported length departs from the layout, as in the counterexample. -/
theorem encrypted_size_reported (env : Env) (reqPath : String) (storage : Storage)
    (cdrv : CryptDriver) (entries : List FsObj) (obj : FsObj) (dk : List Nat)
    (rs0 : Storage) (rap0 : String) (chain : List storageChainNode)
    (last : storageChainNode) (link : GoLink) (robj : Option FsObj)
    (hstorage : env.fsGetStorage reqPath = Except.ok storage)
    (hcrypt : storage.crypt = some cdrv)
    (hlist : env.fsList (if env.pathDir (env.FixAndCleanPath reqPath) = "."
        then "/" else env.pathDir (env.FixAndCleanPath reqPath)) = Except.ok entries)
    (hfind : entries.find?
        (fun entry => entry.Name == env.pathBase (env.FixAndCleanPath reqPath)) = some obj)
    (hdir : obj.IsDir = false)
    (hkey : DataKey env cdrv = Except.ok dk)
    (hga : env.getStorageAndActualPath (cdrv.encryptedPath
        (trimPrefixStr (trimPrefixStr (env.FixAndCleanPath reqPath) storage.MountPath) "/") false)
        = Except.ok (rs0, rap0))
    (hchain : buildStorageChain env (cdrv.encryptedPath
        (trimPrefixStr (trimPrefixStr (env.FixAndCleanPath reqPath) storage.MountPath) "/") false)
        = Except.ok chain)
    (hlast : chain.getLast? = some last)
    (hlink : env.opLink last.storage last.actualPath = Except.ok (link, robj)) :
    ∃ resp, CryptMeta env reqPath = HandlerResult.ok resp ∧
      resp.Mode = "crypt" ∧
      resp.EncryptedSize =
        (if link.ContentLength > 0 then link.ContentLength
         else match robj with | some o => o.Size | none => 0) ∧
      (resp.EncryptedSize = specEncryptedSize resp.Size resp.FileHeaderSize
          resp.BlockDataSize resp.BlockHeaderSize ↔
        (if link.ContentLength > 0 then link.ContentLength
         else match robj with | some o => o.Size | none => 0) =
          specEncryptedSize obj.Size FileHeaderSize DataBlockSize DataBlockHeaderSize) := by
  simp only [CryptMeta, hstorage, hcrypt, hlist, hfind, hdir, Bool.false_eq_true, if_false,
    hkey, hga, hchain, hlast, cryptMetaFinish, hlink]
  refine ⟨_, rfl, rfl, ?_, ?_⟩
  · cases robj <;> rfl
  · cases robj <;> exact Iff.rfl

/-- A backend link whose reported content length follows the crypt layout
for a logical size of 100 (100 + 32 + 16 * 1 = 148). -/
def linkC4 : GoLink :=
  { URL := "http://y", Header := [], ContentLength := 148,
    Concurrency := 0, PartSize := 0 }

/-- The `envCrypt` scenario with a layout-conforming backend. -/
def envCrypt4 : Env := { envCrypt with opLink := fun _ _ => .ok (linkC4, none) }

/-- The terminal chain node of the crypt-mode scenarios. -/
def nodeR : storageChainNode :=
  { storage := storR, rawPath := "/r/f.bin", actualPath := "/r/f.bin" }

/-- Witness for C4 (amended) at the layout-conforming concrete run. -/
theorem encrypted_size_reported_witness :
    envCrypt4.fsGetStorage "/c/f" = Except.ok storCrypt ∧
    storCrypt.crypt = some cdrvC ∧
    envCrypt4.fsList (if envCrypt4.pathDir (envCrypt4.FixAndCleanPath "/c/f") = "."
      then "/" else envCrypt4.pathDir (envCrypt4.FixAndCleanPath "/c/f")) = Except.ok [objC] ∧
    ([objC].find?
      (fun entry => entry.Name == envCrypt4.pathBase (envCrypt4.FixAndCleanPath "/c/f")) = some objC) ∧
    objC.IsDir = false ∧
    DataKey envCrypt4 cdrvC = Except.ok (List.replicate dataKeyLen 0) ∧
    envCrypt4.getStorageAndActualPath (cdrvC.encryptedPath
      (trimPrefixStr (trimPrefixStr (envCrypt4.FixAndCleanPath "/c/f") storCrypt.MountPath) "/") false)
      = Except.ok (storR, "/r/f.bin") ∧
    buildStorageChain envCrypt4 (cdrvC.encryptedPath
      (trimPrefixStr (trimPrefixStr (envCrypt4.FixAndCleanPath "/c/f") storCrypt.MountPath) "/") false)
      = Except.ok [nodeR] ∧
    ([nodeR] : List storageChainNode).getLast? = some nodeR ∧
    envCrypt4.opLink nodeR.storage nodeR.actualPath = Except.ok (linkC4, none) ∧
    (∃ resp, CryptMeta envCrypt4 "/c/f" = HandlerResult.ok resp ∧
      resp.Mode = "crypt" ∧
      resp.EncryptedSize =
        (if linkC4.ContentLength > 0 then linkC4.ContentLength
         else match (none : Option FsObj) with | some o => o.Size | none => 0) ∧
      (resp.EncryptedSize = specEncryptedSize resp.Size resp.FileHeaderSize
          resp.BlockDataSize resp.BlockHeaderSize ↔
        (if linkC4.ContentLength > 0 then linkC4.ContentLength
         else match (none : Option FsObj) with | some o => o.Size | none => 0) =
          specEncryptedSize objC.Size FileHeaderSize DataBlockSize DataBlockHeaderSize)) :=
  ⟨rfl, rfl, rfl, rfl, rfl, rfl, rfl, rfl, rfl, rfl,
   encrypted_size_reported envCrypt4 "/c/f" storCrypt cdrvC [objC] objC
     (List.replicate dataKeyLen 0) storR "/r/f.bin" [nodeR] nodeR linkC4 none
     rfl rfl rfl rfl rfl rfl rfl rfl rfl rfl⟩

